import Mathlib

/-!
Shallow embedding of `src/packages/x6/src/handler/rubberband/handler.ts`
(`RubberbandHandler`), the rubberband (marquee) selection controller.

Coordinates are modelled as `Int` (TypeScript numbers used here only as
pixel coordinates, added/subtracted/compared). DOM side effects are made
explicit: overlay `div` elements carry an identity (`Div.id`), and the
controller state carries logs of the elements appended to the container,
removed synchronously, or scheduled for fade-out removal, the rendered
overlay boxes, and the `selectCellsInRegion` commits.

External collaborators (graph pan offset, tolerance, container scroll and
offset, Firefox detection) are read-only parameters collected in `Env`.
`MouseEventEx` is modelled as a record `MEvent`; its `consume` operation
(optionally non-default-preventing, per the event interface) sets the
`consumed` flag and sets `defaultPrevented` only when asked to.
-/

namespace Rubberband

/-- A point, as `struct/Point` used for `origin`. -/
structure Point where
  x : Int
  y : Int
deriving DecidableEq, Repr

/-- A rectangle, as `struct/Rectangle` passed to `selectCellsInRegion`. -/
structure Rect where
  x : Int
  y : Int
  width : Int
  height : Int
deriving DecidableEq, Repr

/-- An overlay `div` element: an identity plus the one style bit the
handler reads (`style.display !== 'none'` in `isActive`). The handler
never sets `display`, so elements it creates keep `displayNone = false`. -/
structure Div where
  id : Nat
  displayNone : Bool
deriving DecidableEq, Repr

/-- The box written to the div's style by `repaint`: `left`/`top` are the
stored `x`/`y`, `width`/`height` are clamped with `Math.max(1, _)`. -/
structure RenderBox where
  left : Int
  top : Int
  width : Int
  height : Int
deriving DecidableEq, Repr

/-- `MouseEventEx` at the interface boundary: client coordinates, the Alt
modifier of the raw event, the consumed flag, whether default handling was
prevented, and the predicates the `mouseDown` gates query (`isOnCell`,
`isMultiTouchEvent`, primary-button validity). -/
structure MEvent where
  clientX : Int
  clientY : Int
  alt : Bool
  consumed : Bool
  defaultPrevented : Bool
  onCell : Bool
  multiTouch : Bool
  primary : Bool
deriving DecidableEq, Repr

/-- `e.consume(preventDefault)`: marks the event consumed; prevents default
handling only when the flag is `true`. -/
def MEvent.consume (e : MEvent) (preventDefault : Bool) : MEvent :=
  { e with consumed := true
           defaultPrevented := e.defaultPrevented || preventDefault }

/-- Read-only graph/environment services consumed by the handler:
pan offset, drag tolerance, container scroll origin and offset
(`util.getScrollOrigin` / `util.getOffset`), and `detector.IS_FIREFOX`. -/
structure Env where
  panX : Int
  panY : Int
  tolerance : Int
  scrollX : Int
  scrollY : Int
  offsetX : Int
  offsetY : Int
  isFirefox : Bool
deriving DecidableEq, Repr

/-- The mutable state of a `RubberbandHandler` instance, together with
explicit logs of its external effects (most recent first). -/
structure S where
  /-- `graph.options.rubberband.enabled`, toggled by `enable`/`disable`. -/
  enabled : Bool
  /-- the `fadeOut` option field. -/
  fadeOut : Bool
  /-- the current overlay element (`this.div`), `none` = `null`. -/
  div : Option Div
  /-- the reusable overlay element (`this.sharedDiv`). -/
  sharedDiv : Option Div
  /-- `this.origin`. -/
  origin : Option Point
  currentX : Int
  currentY : Int
  x : Int
  y : Int
  width : Int
  height : Int
  /-- `this.onMouseMove` / `this.onMouseUp` are non-null. -/
  moveUpHandlers : Bool
  /-- document-level listeners attached (Firefox workaround in `start`). -/
  docListeners : Bool
  /-- graph channel subscriptions installed by the constructor. -/
  subscribed : Bool
  /-- fresh id supply for `document.createElement('div')`. -/
  nextId : Nat
  /-- elements passed to `container.appendChild` (most recent first). -/
  appended : List Div
  /-- elements removed synchronously by `util.removeElement`. -/
  removed : List Div
  /-- elements whose removal was scheduled by the fade-out timer. -/
  fading : List Div
  /-- boxes written to the overlay's style by `repaint`. -/
  renders : List RenderBox
  /-- `graph.selectCellsInRegion(rect, e)` invocations. -/
  commits : List (Rect × MEvent)
  /-- count of `util.clearSelection()` calls. -/
  clearSelections : Nat
deriving DecidableEq, Repr

/-- The state of a freshly constructed handler (`config()` then the
constructor subscriptions), with both options off; field initialisers in
the source give `fadeOut = false`, `div = sharedDiv = null`,
`currentX = currentY = 0`; the un-initialised geometry fields are 0. -/
def init : S :=
  { enabled := false, fadeOut := false, div := none, sharedDiv := none
    origin := none, currentX := 0, currentY := 0
    x := 0, y := 0, width := 0, height := 0
    moveUpHandlers := false, docListeners := false, subscribed := true
    nextId := 0, appended := [], removed := [], fading := []
    renders := [], commits := [], clearSelections := 0 }

/-- The three-state drag machine of the spec, derived from the state:
`Dragging` iff the overlay exists, else `Armed` iff the origin is set. -/
inductive DragState
  | idle
  | armed
  | dragging
deriving DecidableEq, Repr

/-- Derived drag state. -/
def state (s : S) : DragState :=
  if s.div.isSome then DragState.dragging
  else if s.origin.isSome then DragState.armed
  else DragState.idle

/-- `enable()`. -/
def enable (s : S) : S := { s with enabled := true }

/-- `disable()`. -/
def disable (s : S) : S := { s with enabled := false }

/-- `isForceRubberbandEvent`: `DomEvent.isAltDown(e.getEvent())`. -/
def isForceRubberbandEvent (e : MEvent) : Bool := e.alt

/-- `getPosition`: client coordinates plus the container's scroll origin
minus its offset. -/
def getPosition (env : Env) (e : MEvent) : Point :=
  { x := e.clientX + (env.scrollX - env.offsetX)
    y := e.clientY + (env.scrollY - env.offsetY) }

/-- Modelled from the spec: `MouseHandler.isValid` is inherited from the
generic mouse-handler base class, which is not under `src/`. Per the spec
the pointer-down is ignored unless the controller is enabled and the event
is an unconsumed primary-button press. -/
def isValid (s : S) (e : MEvent) : Bool :=
  s.enabled && e.primary && !e.consumed

/-- `start(x, y)`: record the origin, install the move/up handlers, and
attach document-level listeners when on Firefox. -/
def start (env : Env) (s : S) (px py : Int) : S :=
  { s with origin := some { x := px, y := py }
           moveUpHandlers := true
           docListeners := s.docListeners || env.isFirefox }

/-- `prepare(e)`: start at the event's position and consume the event
without preventing its default handling (`e.consume(false)`). -/
def prepare (env : Env) (s : S) (e : MEvent) : S × MEvent :=
  let p := getPosition env e
  (start env s p.x p.y, e.consume false)

/-- `mouseDown(e)`: accept only a valid event not over a cell and not
multi-touch. -/
def mouseDown (env : Env) (s : S) (e : MEvent) : S × MEvent :=
  if isValid s e && !e.onCell && !e.multiTouch then prepare env s e
  else (s, e)

/-- The constructor-installed `mouseEvent` subscription: a force-rubberband
mouse-down goes straight to `prepare`, with none of the `mouseDown` gates. -/
def onMouseEvent (env : Env) (s : S) (eventName : String) (e : MEvent) :
    S × MEvent :=
  if eventName == "mouseDown" && isForceRubberbandEvent e then prepare env s e
  else (s, e)

/-- `createShape()`: lazily create the shared div, append it to the
container, and when fading out clear the shared reference so the next drag
gets a fresh element. Returns the element used for this drag. -/
def createShape (s : S) : S × Div :=
  let alloc : S × Div :=
    match s.sharedDiv with
    | none =>
        let d : Div := { id := s.nextId, displayNone := false }
        ({ s with sharedDiv := some d, nextId := s.nextId + 1 }, d)
    | some d => (s, d)
  let s1 := { alloc.1 with appended := alloc.2 :: alloc.1.appended }
  let result := alloc.2
  let s2 := if s1.fadeOut then { s1 with sharedDiv := none } else s1
  (s2, result)

/-- `repaint()`: when both the overlay and the origin exist, recompute the
rectangle as the min/max envelope of the origin and the pan-adjusted
current position, and write the style box with width/height clamped to at
least 1. -/
def repaint (env : Env) (s : S) : S :=
  match s.div, s.origin with
  | some _, some o =>
      let cx := s.currentX - env.panX
      let cy := s.currentY - env.panY
      let nx := min o.x cx
      let ny := min o.y cy
      let nw := max o.x cx - nx
      let nh := max o.y cy - ny
      { s with x := nx, y := ny, width := nw, height := nh
               renders := { left := nx, top := ny
                            width := max 1 nw
                            height := max 1 nh } :: s.renders }
  | _, _ => s

/-- `update(x, y)`: record the current position and repaint. -/
def update (env : Env) (s : S) (px py : Int) : S :=
  repaint env { s with currentX := px, currentY := py }

/-- `mouseMove(e)`: on an unconsumed move with an origin set, once the
overlay exists or the move exceeds the tolerance on either axis, create
the overlay if needed, clear the native selection, update, and consume. -/
def mouseMove (env : Env) (s : S) (e : MEvent) : S × MEvent :=
  if !e.consumed then
    match s.origin with
    | some o =>
        let p := getPosition env e
        let dx := o.x - p.x
        let dy := o.y - p.y
        let tol := env.tolerance
        if s.div.isSome || |dx| > tol || |dy| > tol then
          let s1 :=
            if s.div.isSome then s
            else
              let c := createShape s
              { c.1 with div := some c.2 }
          let s2 := { s1 with clearSelections := s1.clearSelections + 1 }
          (update env s2 p.x p.y, e.consume true)
        else (s, e)
    | none => (s, e)
  else (s, e)

/-- `isActive()`: the overlay exists and its display is not `none`. -/
def isActive (s : S) : Bool :=
  match s.div with
  | some d => !d.displayNone
  | none => false

/-- `execute(e)`: invoke `graph.selectCellsInRegion` with the stored
rectangle and the raw release event. -/
def execute (s : S) (e : MEvent) : S :=
  { s with commits := ({ x := s.x, y := s.y
                         width := s.width, height := s.height }, e)
                      :: s.commits }

/-- `reset()`: remove the overlay (immediately, or via the scheduled
fade-out removal), detach the move/up listeners unconditionally, and clear
the transient drag state. -/
def reset (s : S) : S :=
  let s1 :=
    match s.div with
    | some d =>
        if s.fadeOut then { s with fading := d :: s.fading }
        else { s with removed := d :: s.removed }
    | none => s
  { s1 with docListeners := false, moveUpHandlers := false
            currentX := 0, currentY := 0, origin := none, div := none }

/-- `mouseUp(e)`: capture activity before the reset; when the drag was
active, execute the selection commit and consume the release event. -/
def mouseUp (s : S) (e : MEvent) : S × MEvent :=
  let active := isActive s
  let s1 := reset s
  if active then (execute s1 e, e.consume true)
  else (s1, e)

/-- The constructor-installed `pan` subscription: repaint. -/
def onPan (env : Env) (s : S) : S := repaint env s

/-- The constructor-installed `gesture` subscription: reset when a drag is
in progress. -/
def onGesture (s : S) : S :=
  if s.origin.isSome then reset s else s

/-- `dispose()`: unsubscribe from the graph channels, reset, and release
the shared overlay reference. -/
def dispose (s : S) : S :=
  let s1 := reset { s with subscribed := false }
  { s1 with sharedDiv := none }

/-- Folding a sequence of move events through `mouseMove`. -/
def processMoves (env : Env) (s : S) : List MEvent → S
  | [] => s
  | e :: es => processMoves env (mouseMove env s e).1 es

/-- The two-part invariant of the spec data model: the overlay handle is
non-null iff the derived state is Dragging, and the origin is non-null iff
the derived state is Armed or Dragging. -/
def StateInv (s : S) : Prop :=
  (s.div.isSome = true ↔ state s = DragState.dragging) ∧
  (s.origin.isSome = true ↔
    (state s = DragState.armed ∨ state s = DragState.dragging))

/-- A sample environment: tolerance 4 pixels, no pan, no scroll. -/
def env0 : Env :=
  { panX := 0, panY := 0, tolerance := 4, scrollX := 0, scrollY := 0
    offsetX := 0, offsetY := 0, isFirefox := false }

/-- A sample accepted pointer-down at client position (10, 10). -/
def evDown : MEvent :=
  { clientX := 10, clientY := 10, alt := false, consumed := false
    defaultPrevented := false, onCell := false, multiTouch := false
    primary := true }

/-- A sample jitter move to (11, 11), within the 4-pixel tolerance. -/
def evSmall : MEvent := { evDown with clientX := 11, clientY := 11 }

/-- A sample drag move to (50, 40), exceeding the tolerance. -/
def evMove : MEvent := { evDown with clientX := 50, clientY := 40 }

/-- A sample release at (50, 40). -/
def evUp : MEvent := { evDown with clientX := 50, clientY := 40 }

/-- A sample force-rubberband pointer-down: Alt held, with every normal
gate adverse (already consumed, over a cell, multi-touch, not primary). -/
def evForce : MEvent :=
  { clientX := 5, clientY := 6, alt := true, consumed := true
    defaultPrevented := false, onCell := true, multiTouch := true
    primary := false }

/-- A handler state reached by an accepted pointer-down at (10, 10)
followed by a drag move to (50, 40): the Dragging state. -/
def sDrag : S :=
  (mouseMove env0 (mouseDown env0 (enable init) evDown).1 evMove).1

/-- The initial state with the fade-out option enabled. -/
def sFade : S := { init with fadeOut := true }

end Rubberband

/-! ## Helper lemmas -/

namespace Rubberband

theorem reset_div (s : S) : (reset s).div = none := by
  obtain ⟨en, fo, dv, sh, orig, cx, cy, xx, yy, w, h, mh, dl, su, ni, ap, rm, fa, re, co, cs⟩ := s
  cases dv <;> cases fo <;> rfl

theorem reset_origin (s : S) : (reset s).origin = none := by
  obtain ⟨en, fo, dv, sh, orig, cx, cy, xx, yy, w, h, mh, dl, su, ni, ap, rm, fa, re, co, cs⟩ := s
  cases dv <;> cases fo <;> rfl

theorem reset_commits (s : S) : (reset s).commits = s.commits := by
  obtain ⟨en, fo, dv, sh, orig, cx, cy, xx, yy, w, h, mh, dl, su, ni, ap, rm, fa, re, co, cs⟩ := s
  cases dv <;> cases fo <;> rfl

theorem mouseUp_inactive (s : S) (e : MEvent) (h : isActive s = false) :
    mouseUp s e = (reset s, e) := by
  simp [mouseUp, h]

theorem mouseUp_div (s : S) (e : MEvent) : (mouseUp s e).1.div = none := by
  cases h : isActive s <;> simp [mouseUp, h, execute, reset_div]

theorem dispose_div (s : S) : (dispose s).div = none :=
  reset_div { s with subscribed := false }

theorem repaint_frame (env : Env) (s : S) :
    (repaint env s).div = s.div ∧ (repaint env s).origin = s.origin ∧
    (repaint env s).currentX = s.currentX ∧
    (repaint env s).currentY = s.currentY ∧
    (repaint env s).commits = s.commits ∧
    (repaint env s).appended = s.appended := by
  obtain ⟨en, fo, dv, sh, orig, cx, cy, xx, yy, w, h, mh, dl, su, ni, ap, rm, fa, re, co, cs⟩ := s
  cases dv <;> cases orig <;> exact ⟨rfl, rfl, rfl, rfl, rfl, rfl⟩

theorem stateInv_iff (s : S) :
    StateInv s ↔ (s.div.isSome = true → s.origin.isSome = true) := by
  unfold StateInv state
  cases hd : s.div.isSome <;> cases ho : s.origin.isSome <;> simp [hd, ho]

theorem mouseMove_inv (env : Env) (s : S) (e : MEvent)
    (h : s.div.isSome = true → s.origin.isSome = true) :
    (mouseMove env s e).1.div.isSome = true →
      (mouseMove env s e).1.origin.isSome = true := by
  obtain ⟨en, fo, dv, sh, orig, cx, cy, xx, yy, w, h2, mh, dl, su, ni, ap, rm, fa, re, co, cs⟩ := s
  cases hc : e.consumed <;> cases orig <;> cases dv <;> cases sh <;> cases fo <;>
    simp_all [mouseMove, update, repaint, createShape] <;> (try split) <;>
    simp_all

theorem mouseMove_quiet (env : Env) (s : S) (e : MEvent) (o : Point)
    (hdiv : s.div = none) (horig : s.origin = some o)
    (hx : |o.x - (getPosition env e).x| ≤ env.tolerance)
    (hy : |o.y - (getPosition env e).y| ≤ env.tolerance) :
    (mouseMove env s e).1 = s := by
  unfold mouseMove
  cases hc : e.consumed
  · simp only [Bool.not_false, if_true, horig]
    rw [if_neg]
    simp [hdiv, not_or, not_lt]
    exact ⟨hx, hy⟩
  · simp

theorem processMoves_quiet (env : Env) (s : S) (o : Point) (es : List MEvent)
    (hdiv : s.div = none) (horig : s.origin = some o)
    (h : ∀ e ∈ es, |o.x - (getPosition env e).x| ≤ env.tolerance ∧
                   |o.y - (getPosition env e).y| ≤ env.tolerance) :
    processMoves env s es = s := by
  induction es with
  | nil => rfl
  | cons e es ih =>
      have he := h e (List.mem_cons_self e es)
      rw [processMoves, mouseMove_quiet env s e o hdiv horig he.1 he.2]
      exact ih fun e2 he2 => h e2 (List.mem_cons_of_mem e he2)

end Rubberband

/-! ## Claim theorems -/

namespace Rubberband

/-- Claim C1: for a drag session whose origin is set by an accepted
pointer-down, if every subsequent move stays within the tolerance on both
axes then the state never changes, no overlay element is ever created
(`div` stays null, nothing is appended to the container), and the release
issues no selection commit and leaves the release event untouched - the
interaction is equivalent to a simple click. -/
theorem quiet_drag_is_click (env : Env) (s : S) (e0 : MEvent)
    (es : List MEvent) (eUp : MEvent)
    (hacc : (isValid s e0 && !e0.onCell && !e0.multiTouch) = true)
    (hdiv : s.div = none)
    (hmoves : ∀ e ∈ es,
      |(getPosition env e0).x - (getPosition env e).x| ≤ env.tolerance ∧
      |(getPosition env e0).y - (getPosition env e).y| ≤ env.tolerance) :
    processMoves env (mouseDown env s e0).1 es = (mouseDown env s e0).1 ∧
    (processMoves env (mouseDown env s e0).1 es).div = none ∧
    (processMoves env (mouseDown env s e0).1 es).appended = s.appended ∧
    (mouseUp (processMoves env (mouseDown env s e0).1 es) eUp).1.commits
      = s.commits ∧
    (mouseUp (processMoves env (mouseDown env s e0).1 es) eUp).2 = eUp := by
  have hdown : (mouseDown env s e0).1 =
      start env s (getPosition env e0).x (getPosition env e0).y := by
    simp [mouseDown, hacc, prepare]
  have h1div : (mouseDown env s e0).1.div = none := by
    rw [hdown]
    exact hdiv
  have h1orig : (mouseDown env s e0).1.origin = some (getPosition env e0) := by
    rw [hdown]
    rfl
  have hmv : processMoves env (mouseDown env s e0).1 es
      = (mouseDown env s e0).1 :=
    processMoves_quiet env _ (getPosition env e0) es h1div h1orig hmoves
  have hact : isActive (processMoves env (mouseDown env s e0).1 es) = false := by
    rw [hmv]
    unfold isActive
    rw [h1div]
  have hup := mouseUp_inactive (processMoves env (mouseDown env s e0).1 es)
    eUp hact
  refine ⟨hmv, ?_, ?_, ?_, ?_⟩
  · rw [hmv]
    exact h1div
  · rw [hmv, hdown]
    rfl
  · rw [hup]
    show (reset _).commits = s.commits
    rw [reset_commits, hmv, hdown]
    rfl
  · rw [hup]

/-- Claim C1 witness: pointer-down at (10, 10), one move to (11, 11)
within the 4-pixel tolerance, release: nothing is created or committed. -/
theorem quiet_drag_is_click_witness :
    processMoves env0 (mouseDown env0 (enable init) evDown).1 [evSmall]
      = (mouseDown env0 (enable init) evDown).1 ∧
    (processMoves env0 (mouseDown env0 (enable init) evDown).1 [evSmall]).div
      = none ∧
    (processMoves env0
      (mouseDown env0 (enable init) evDown).1 [evSmall]).appended
      = (enable init).appended ∧
    (mouseUp (processMoves env0
      (mouseDown env0 (enable init) evDown).1 [evSmall]) evUp).1.commits
      = (enable init).commits ∧
    (mouseUp (processMoves env0
      (mouseDown env0 (enable init) evDown).1 [evSmall]) evUp).2 = evUp :=
  quiet_drag_is_click env0 (enable init) evDown [evSmall] evUp
    (by decide) (by decide) (by decide)

/-- Claim C2: on every repaint while Dragging (overlay and origin both
set), the stored rectangle is the min/max envelope of the origin and the
pan-adjusted current position, and the box written to the overlay style
has that left/top with width and height clamped to at least 1. -/
theorem repaint_envelope (env : Env) (s : S) (d : Div) (o : Point)
    (hdiv : s.div = some d) (horig : s.origin = some o) :
    (repaint env s).x = min o.x (s.currentX - env.panX) ∧
    (repaint env s).y = min o.y (s.currentY - env.panY) ∧
    (repaint env s).width =
      max o.x (s.currentX - env.panX) - min o.x (s.currentX - env.panX) ∧
    (repaint env s).height =
      max o.y (s.currentY - env.panY) - min o.y (s.currentY - env.panY) ∧
    (repaint env s).renders =
      { left := (repaint env s).x, top := (repaint env s).y
        width := max 1 (repaint env s).width
        height := max 1 (repaint env s).height } :: s.renders ∧
    (∀ r, (repaint env s).renders.head? = some r →
      1 ≤ r.width ∧ 1 ≤ r.height) := by
  obtain ⟨en, fo, dv, sh, orig, cx, cy, xx, yy, w, h, mh, dl, su, ni, ap, rm, fa, re, co, cs⟩ := s
  simp only [S.div] at hdiv
  simp only [S.origin] at horig
  subst hdiv horig
  refine ⟨rfl, rfl, rfl, rfl, rfl, ?_⟩
  intro r hr
  simp [repaint] at hr
  subst hr
  exact ⟨le_max_left 1 _, le_max_left 1 _⟩

/-- Claim C2 witness: in the Dragging state reached from (10, 10) with the
pointer at (50, 40) and no pan, the stored x is min 10 50. -/
theorem repaint_envelope_witness :
    sDrag.div = some (Div.mk 0 false) ∧
    sDrag.origin = some (Point.mk 10 10) ∧
    (repaint env0 sDrag).x
      = min (Point.mk 10 10).x (sDrag.currentX - env0.panX) ∧
    (repaint env0 sDrag).width
      = max (Point.mk 10 10).x (sDrag.currentX - env0.panX)
        - min (Point.mk 10 10).x (sDrag.currentX - env0.panX) := by
  have h := repaint_envelope env0 sDrag (Div.mk 0 false) (Point.mk 10 10)
    (by decide) (by decide)
  exact ⟨by decide, by decide, h.1, h.2.2.1⟩

/-- Claim C3: a release while Dragging (overlay exists and is not
display-none) appends exactly one selection commit carrying the stored
rectangle of the last repaint and the release event, marks the release
event consumed, and ends Idle with origin and overlay cleared; a release
while not Dragging resets but issues no commit and leaves the event. -/
theorem mouseUp_commit (s : S) (e : MEvent) :
    (isActive s = true →
      (mouseUp s e).1.commits =
        ({ x := s.x, y := s.y, width := s.width, height := s.height }, e)
          :: s.commits ∧
      (mouseUp s e).2.consumed = true ∧
      (mouseUp s e).1.origin = none ∧ (mouseUp s e).1.div = none ∧
      state (mouseUp s e).1 = DragState.idle) ∧
    (isActive s = false →
      (mouseUp s e).1 = reset s ∧ (mouseUp s e).1.commits = s.commits ∧
      (mouseUp s e).2 = e) := by
  obtain ⟨en, fo, dv, sh, orig, cx, cy, xx, yy, w, h, mh, dl, su, ni, ap, rm, fa, re, co, cs⟩ := s
  cases dv with
  | none => exact ⟨fun hact => by simp [isActive] at hact, fun _ => ⟨rfl, rfl, rfl⟩⟩
  | some d =>
      cases hdn : d.displayNone <;> cases fo <;>
        simp [isActive, hdn, mouseUp, reset, execute, state, MEvent.consume]

/-- Claim C3 witness: releasing the sample drag at (50, 40) commits the
rectangle of the last repaint exactly once. -/
theorem mouseUp_commit_witness :
    isActive sDrag = true ∧
    (mouseUp sDrag evUp).1.commits =
      ({ x := sDrag.x, y := sDrag.y
         width := sDrag.width, height := sDrag.height }, evUp)
        :: sDrag.commits ∧
    (mouseUp sDrag evUp).2.consumed = true :=
  ⟨by decide, ((mouseUp_commit sDrag evUp).1 (by decide)).1,
    ((mouseUp_commit sDrag evUp).1 (by decide)).2.1⟩

end Rubberband

namespace Rubberband

/-- Claim C4: every controller operation preserves the state invariant
(overlay non-null iff Dragging; origin non-null iff Armed or Dragging,
hence overlay non-null implies origin non-null), and reset restores both
handles to null together. -/
theorem state_invariant_preserved (env : Env) (s : S) (e : MEvent)
    (n : String) (h : StateInv s) :
    StateInv (mouseDown env s e).1 ∧ StateInv (prepare env s e).1 ∧
    StateInv (onMouseEvent env s n e).1 ∧ StateInv (mouseMove env s e).1 ∧
    StateInv (mouseUp s e).1 ∧ StateInv (onPan env s) ∧
    StateInv (onGesture s) ∧ StateInv (reset s) ∧ StateInv (dispose s) ∧
    (reset s).origin = none ∧ (reset s).div = none := by
  rw [stateInv_iff] at h
  refine ⟨?_, ?_, ?_, ?_, ?_, ?_, ?_, ?_, ?_, reset_origin s, reset_div s⟩ <;>
    rw [stateInv_iff]
  · unfold mouseDown
    split
    · simp [prepare, start]
    · exact h
  · simp [prepare, start]
  · unfold onMouseEvent
    split
    · simp [prepare, start]
    · exact h
  · exact mouseMove_inv env s e h
  · rw [mouseUp_div]
    simp
  · unfold onPan
    rw [(repaint_frame env s).1, (repaint_frame env s).2.1]
    exact h
  · unfold onGesture
    split
    · rw [reset_div]
      simp
    · exact h
  · rw [reset_div]
    simp
  · rw [dispose_div]
    simp

/-- Claim C4 witness: the invariant holds in the sample Dragging state and
is preserved by a release there, and reset clears both handles. -/
theorem state_invariant_preserved_witness :
    StateInv (mouseUp sDrag evUp).1 ∧
    (reset sDrag).origin = none ∧ (reset sDrag).div = none := by
  have h := state_invariant_preserved env0 sDrag evUp "mouseDown"
    (by rw [stateInv_iff sDrag]; decide)
  exact ⟨h.2.2.2.2.1, h.2.2.2.2.2.2.2.2.2.1, h.2.2.2.2.2.2.2.2.2.2⟩

/-- Claim C5: a pan notification only repaints: origin, current pointer
position, overlay handle and hence the derived drag state are unchanged,
and with no overlay or no origin it has no effect at all. -/
theorem onPan_only_repaints (env : Env) (s : S) :
    onPan env s = repaint env s ∧
    (onPan env s).origin = s.origin ∧
    (onPan env s).currentX = s.currentX ∧
    (onPan env s).currentY = s.currentY ∧
    (onPan env s).div = s.div ∧ state (onPan env s) = state s ∧
    ((s.div = none ∨ s.origin = none) → onPan env s = s) := by
  obtain ⟨en, fo, dv, sh, orig, cx, cy, xx, yy, w, h, mh, dl, su, ni, ap, rm, fa, re, co, cs⟩ := s
  cases dv <;> cases orig <;> simp [onPan, repaint, state]

/-- Claim C5 witness: panning during the sample drag keeps the origin, and
panning the idle initial state is a no-op. -/
theorem onPan_only_repaints_witness :
    (onPan env0 sDrag).origin = sDrag.origin ∧ onPan env0 init = init :=
  ⟨(onPan_only_repaints env0 sDrag).2.1,
    (onPan_only_repaints env0 init).2.2.2.2.2.2 (Or.inl (by decide))⟩

/-- Claim C6: a gesture-start while a drag is in progress (origin set)
performs a full reset - the overlay is removed or enters fade-out, the
temporary listeners are detached, origin and current position are cleared,
the state is back to Idle - and no selection commit is issued; a
gesture-start while Idle is a no-op. -/
theorem onGesture_cancels (s : S) :
    (s.origin.isSome = true →
      onGesture s = reset s ∧ (onGesture s).origin = none ∧
      (onGesture s).div = none ∧ (onGesture s).commits = s.commits ∧
      (onGesture s).moveUpHandlers = false ∧
      (onGesture s).docListeners = false ∧
      (onGesture s).currentX = 0 ∧ (onGesture s).currentY = 0 ∧
      state (onGesture s) = DragState.idle ∧
      (∀ d, s.div = some d →
        (if s.fadeOut then (onGesture s).fading = d :: s.fading
         else (onGesture s).removed = d :: s.removed))) ∧
    (s.origin = none → onGesture s = s) := by
  obtain ⟨en, fo, dv, sh, orig, cx, cy, xx, yy, w, h, mh, dl, su, ni, ap, rm, fa, re, co, cs⟩ := s
  cases orig <;> cases dv <;> cases fo <;>
    simp [onGesture, reset, state]

/-- Claim C6 witness: a gesture-start during the sample drag cancels it
without a commit, and a gesture-start on the idle initial state is a
no-op. -/
theorem onGesture_cancels_witness :
    sDrag.origin.isSome = true ∧ (onGesture sDrag).div = none ∧
    (onGesture sDrag).commits = sDrag.commits ∧ onGesture init = init :=
  ⟨by decide, ((onGesture_cancels sDrag).1 (by decide)).2.2.1,
    ((onGesture_cancels sDrag).1 (by decide)).2.2.2.1,
    (onGesture_cancels init).2 (by decide)⟩

/-- Claim C7: reset is idempotent: a second reset (also the one reachable
through dispose) changes nothing further, and reset never invokes the
selection commit. -/
theorem reset_idempotent (s : S) :
    reset (reset s) = reset s ∧ (reset s).commits = s.commits ∧
    reset (dispose s) = dispose s := by
  obtain ⟨en, fo, dv, sh, orig, cx, cy, xx, yy, w, h, mh, dl, su, ni, ap, rm, fa, re, co, cs⟩ := s
  cases dv <;> cases fo <;> exact ⟨rfl, rfl, rfl⟩

/-- Claim C8: with fade-out disabled, `createShape` lazily creates the
shared overlay once and every later call returns that same element; with
fade-out enabled, the shared reference is cleared on every call, so
successive drags get brand-new elements with fresh identities. -/
theorem overlay_reuse (s : S) :
    (s.fadeOut = false →
      (createShape s).1.sharedDiv = some (createShape s).2 ∧
      (createShape (createShape s).1).2 = (createShape s).2 ∧
      (s.sharedDiv = none →
        (createShape s).2 = { id := s.nextId, displayNone := false } ∧
        (createShape s).1.nextId = s.nextId + 1) ∧
      (∀ d, s.sharedDiv = some d →
        (createShape s).2 = d ∧ (createShape s).1.nextId = s.nextId)) ∧
    (s.fadeOut = true →
      (createShape s).1.sharedDiv = none ∧
      (s.sharedDiv = none →
        (createShape s).2.id = s.nextId ∧
        (createShape (createShape s).1).2.id = s.nextId + 1 ∧
        (createShape (createShape s).1).2 ≠ (createShape s).2)) := by
  obtain ⟨en, fo, dv, sh, orig, cx, cy, xx, yy, w, h, mh, dl, su, ni, ap, rm, fa, re, co, cs⟩ := s
  cases fo <;> cases sh <;> simp [createShape, Div.mk.injEq]

/-- Claim C8 witness: from the initial state two calls reuse one element;
with fade-out on, the shared reference is cleared and the second element
differs from the first. -/
theorem overlay_reuse_witness :
    (createShape (createShape init).1).2 = (createShape init).2 ∧
    (createShape sFade).1.sharedDiv = none ∧
    (createShape (createShape sFade).1).2 ≠ (createShape sFade).2 :=
  ⟨((overlay_reuse init).1 (by decide)).2.1,
    ((overlay_reuse sFade).2 (by decide)).1,
    (((overlay_reuse sFade).2 (by decide)).2 (by decide)).2.2⟩

/-- Claim C9: a pointer-down, on the normal or the force path, never
prevents the default handling of the triggering event: `prepare` consumes
with `consume(false)`, leaving `defaultPrevented` untouched, so the rest
of the dispatch chain still runs. -/
theorem pointerDown_keeps_default (env : Env) (s : S) (e : MEvent)
    (n : String) :
    (prepare env s e).2.defaultPrevented = e.defaultPrevented ∧
    (mouseDown env s e).2.defaultPrevented = e.defaultPrevented ∧
    (onMouseEvent env s n e).2.defaultPrevented = e.defaultPrevented ∧
    (prepare env s e).2.consumed = true := by
  unfold mouseDown onMouseEvent
  refine ⟨?_, ?_, ?_, ?_⟩ <;> (try split) <;> simp [prepare, MEvent.consume]

/-- Claim C10: a pointer-down with Alt held reaches `prepare` through the
constructor-installed mouseEvent subscription and captures the origin,
with no regard to the enabled flag, the consumed flag, the pointer being
over a cell, or multi-touch - the state and event here carry arbitrary
values for all those gates. -/
theorem force_rubberband_bypasses_gates (env : Env) (s : S) (e : MEvent)
    (h : e.alt = true) :
    onMouseEvent env s "mouseDown" e = prepare env s e ∧
    (onMouseEvent env s "mouseDown" e).1.origin
      = some (getPosition env e) ∧
    (onMouseEvent env s "mouseDown" e).1.moveUpHandlers = true := by
  simp [onMouseEvent, isForceRubberbandEvent, h, prepare, start, getPosition]

/-- Claim C10 witness: the force event is already consumed, over a cell,
multi-touch, not primary, and the handler is disabled - the origin is
captured anyway. -/
theorem force_rubberband_bypasses_gates_witness :
    evForce.alt = true ∧ init.enabled = false ∧ evForce.consumed = true ∧
    evForce.onCell = true ∧ evForce.multiTouch = true ∧
    evForce.primary = false ∧
    (onMouseEvent env0 init "mouseDown" evForce).1.origin
      = some (getPosition env0 evForce) :=
  ⟨by decide, by decide, by decide, by decide, by decide, by decide,
    (force_rubberband_bypasses_gates env0 init evForce (by decide)).2.1⟩

end Rubberband
